import Mathlib

/-!
Verification development for the SolarScape solar-potential visualizer.

The development shallowly embeds the numerical core of the repository:

* `src/app/utils/shadowCalculate.ts` — the Shadow & PV estimator
  (`isPointInShadow`, `calculateRooftopArea`, `updateInfoCard`);
* the building-click handler and face-color mapping
  (`onBuildingClick`, `getColorForValue`, `highlightBuilding`);
* the sun-position update (`updateSunPosition`) from `sunPosition.ts`.

Modelling conventions:

* JavaScript floating-point numbers are modelled as real numbers (`ℝ`).
  The one place the code can produce a non-finite number (division by
  zero, giving `NaN`/`Infinity`) is modelled by `Option ℝ`, `none`
  standing for a non-finite result (`jsdiv`).
* `Math.random()` jitter is impure; the per-sample jitter offsets are
  passed in explicitly (`jit`/`jits` arguments), so the estimator is a
  deterministic function of geometry, light, scene and the jitter source.
* Scene raycasting (`THREE.Raycaster.intersectObject(scene, true)`) is
  modelled by a list of scene objects, each with a `name` and an abstract
  Boolean hit test on rays; `validIntersects` mirrors the name filter of
  the source exactly.
* DOM reads (`ghi`, `dateInput`, `timeSlider` inputs) are passed in as
  parameters; DOM writes (the info card, `updateInfoCard`) are modelled
  by an explicit `DisplayState` value that is threaded through.
* The external SunCalc library and JavaScript `Date` parsing are passed
  in as function parameters (`getPosition`, `parseDate`), with
  `parseDate s = none` modelling an invalid date (`NaN` timestamp).
-/

open Classical

/-- Three-dimensional vector with real components, modelling `THREE.Vector3`. -/
@[ext] structure Vec3 where
  x : ℝ
  y : ℝ
  z : ℝ

namespace Vec3

/-- Component-wise addition (`Vector3.add`). -/
def add (a b : Vec3) : Vec3 := ⟨a.x + b.x, a.y + b.y, a.z + b.z⟩

/-- Component-wise subtraction (`Vector3.sub` / `subVectors`). -/
def sub (a b : Vec3) : Vec3 := ⟨a.x - b.x, a.y - b.y, a.z - b.z⟩

/-- Cross product (`Vector3.crossVectors`). -/
def cross (a b : Vec3) : Vec3 :=
  ⟨a.y * b.z - a.z * b.y, a.z * b.x - a.x * b.z, a.x * b.y - a.y * b.x⟩

/-- Dot product (`Vector3.dot`). -/
def dot (a b : Vec3) : ℝ := a.x * b.x + a.y * b.y + a.z * b.z

/-- Squared Euclidean length (`Vector3.lengthSq`). -/
def lengthSq (a : Vec3) : ℝ := a.x * a.x + a.y * a.y + a.z * a.z

/-- Euclidean length (`Vector3.length`). -/
noncomputable def length (a : Vec3) : ℝ := Real.sqrt a.lengthSq

/-- Division by a scalar (`Vector3.divideScalar`). -/
noncomputable def divideScalar (a : Vec3) (s : ℝ) : Vec3 := ⟨a.x / s, a.y / s, a.z / s⟩

end Vec3

/-- Normalization as three.js performs it: `divideScalar(this.length() || 1)`,
so the zero vector is left unchanged (`Vector3.normalize`). -/
noncomputable def jsNormalize (v : Vec3) : Vec3 :=
  v.divideScalar (if v.length = 0 then 1 else v.length)

/-- Clamp a value to an interval, as three.js `MathUtils.clamp`:
`Math.max(min, Math.min(max, value))`. -/
noncomputable def clampR (value minv maxv : ℝ) : ℝ := max minv (min maxv value)

/-- Angle between two vectors as three.js `Vector3.angleTo`: `π/2` when either
vector is zero, otherwise `acos` of the clamped normalized dot product. -/
noncomputable def Vec3.angleTo (a b : Vec3) : ℝ :=
  let denominator := Real.sqrt (a.lengthSq * b.lengthSq)
  if denominator = 0 then Real.pi / 2
  else Real.arccos (clampR (a.dot b / denominator) (-1) 1)

/-- JavaScript division producing a finite result: `none` models the
non-finite result (`NaN` or `±Infinity`) of dividing by zero. -/
noncomputable def jsdiv (a b : ℝ) : Option ℝ := if b = 0 then none else some (a / b)

/-- A ray: origin and direction, as configured on the `THREE.Raycaster` in
`isPointInShadow` (`ray.origin.copy(point)`, `ray.direction.copy(rayDirection)`). -/
structure SRay where
  origin : Vec3
  dir : Vec3

/-- One object of the scene graph: its `name` and an abstract intersection
test, abstracting `raycaster.intersectObject(scene, true)` restricted to
that object's geometry. -/
structure SceneObject where
  name : String
  hit : SRay → Bool

/-- The intersection filter of `isPointInShadow` (shadowCalculate.ts lines
30–34): all scene objects the ray hits, keeping an object when its name is
empty (falsy) and otherwise when its name is not exactly `"Sky"`. -/
def validIntersects (objs : List SceneObject) (r : SRay) : List SceneObject :=
  (objs.filter (fun o => o.hit r)).filter
    (fun o => if o.name = "" then true else decide (o.name ≠ "Sky"))

/-- Monte-Carlo shadow fraction of a point (`isPointInShadow`,
shadowCalculate.ts lines 15–43): jitter the direction towards the light by
a per-sample offset, count the rays that hit a valid occluder, and divide
by the number of rays.  The random offsets of the source
(`(Math.random()-0.5)*0.01` per axis) are passed in as `jit`; the source
calls this with the default `numRays = 50`. -/
noncomputable def isPointInShadow (point : Vec3) (lightPos : Vec3)
    (objs : List SceneObject) (jit : ℕ → Vec3) (numRays : ℕ) : ℝ :=
  let direction := jsNormalize (lightPos.sub point)
  let shadowedRays := (List.range numRays).countP (fun i =>
    let rayDirection := jsNormalize (direction.add (jit i))
    decide (0 < (validIntersects objs ⟨point, rayDirection⟩).length))
  (shadowedRays : ℝ) / (numRays : ℝ)

/-- Triangle area as `THREE.Triangle(v1, v2, v3).getArea()`:
half the length of `(c − b) × (a − b)`. -/
noncomputable def calculateTriangleArea (v1 v2 v3 : Vec3) : ℝ :=
  ((v3.sub v2).cross (v1.sub v2)).length * 0.5

/-- Face classification (shadowCalculate.ts lines 83–89): a normal is
vertical when the angle to the up axis is within 1° of 90°. -/
noncomputable def isVertical (normal : Vec3) : Prop :=
  let vertical := jsNormalize ⟨0, 1, 0⟩
  let n := jsNormalize normal
  |n.angleTo vertical - Real.pi / 2| < Real.pi / 180

/-- Per-face classification tag. -/
inductive FaceType where
  | Rooftop
  | Vertical
deriving DecidableEq

/-- Per-face result record returned by `calculateRooftopArea`. -/
structure BipvValue where
  a : ℕ
  b : ℕ
  c : ℕ
  bipvValue : ℝ
  type : FaceType

/-- Accumulator state of the face loop of `calculateRooftopArea`
(shadowCalculate.ts lines 66–70). -/
@[ext] structure CalcAccum where
  totalRooftopArea : ℝ
  totalVerticalArea : ℝ
  totalShadowFractionRooftop : ℝ
  totalShadowFractionVertical : ℝ
  bipvValues : List BipvValue

/-- The values `updateInfoCard` writes into the info-card DOM elements. -/
structure InfoCard where
  buildingName : String
  totalDaytime : ℝ
  totalArea : ℝ
  totalRooftopArea : ℝ
  totalShadowFraction : Option ℝ
  averageShadowFractionRooftop : Option ℝ
  totalPVValue : Option ℝ
  pvValueRooftop : Option ℝ

/-- Display (DOM) state touched by the estimator: the info-card text
fields and whether the card is shown (`display = 'block'`). -/
structure DisplayState where
  card : Option InfoCard
  infoCardVisible : Bool

/-- Write the calculation results into the info card and make it visible
(`updateInfoCard`, shadowCalculate.ts lines 148–180). -/
def updateInfoCard (buildingName : String) (totalDaytime totalArea totalRooftopArea : ℝ)
    (totalShadowFraction averageShadowFractionRooftop totalPVValue pvValueRooftop : Option ℝ)
    (_display : DisplayState) : DisplayState :=
  ⟨some ⟨buildingName, totalDaytime, totalArea, totalRooftopArea,
         totalShadowFraction, averageShadowFractionRooftop, totalPVValue, pvValueRooftop⟩,
   true⟩

/-- A building mesh together with the mutable display attributes touched by
the click handler: geometry (flat vertex-position array and optional
triangle index array), name, whether the highlight material is installed,
the vertex-color attribute (entries `none` model `NaN` floats), and the
material's `vertexColors` flag. -/
structure BuildingState where
  name : String
  vertices : List ℝ
  index : Option (List ℕ)
  highlighted : Bool
  colorAttr : Option (List (Option ℝ))
  vertexColors : Bool

/-- Split the flat index array into consecutive triples, as the loop
`for (i = 0; i < indices.length; i += 3)` reads `indices[i..i+2]`. -/
def faceIndices : List ℕ → List (ℕ × ℕ × ℕ)
  | a :: b :: c :: rest => (a, b, c) :: faceIndices rest
  | _ => []

/-- Read vertex `i` from the flat position array
(`vertices[i*3], vertices[i*3+1], vertices[i*3+2]`). -/
def getV (verts : List ℝ) (i : ℕ) : Vec3 :=
  ⟨verts.getD (i * 3) 0, verts.getD (i * 3 + 1) 0, verts.getD (i * 3 + 2) 0⟩

/-- One iteration of the face loop of `calculateRooftopArea`
(shadowCalculate.ts lines 91–121).  `p` is the face's position in the face
list paired with its three vertex indices; the position selects the jitter
sequence that models the fresh `Math.random()` draws of that iteration. -/
noncomputable def processFace (GHI : ℝ) (verts : List ℝ) (lightPos : Vec3)
    (objs : List SceneObject) (jits : ℕ → ℕ → Vec3)
    (acc : CalcAccum) (p : ℕ × ℕ × ℕ × ℕ) : CalcAccum :=
  let a := p.2.1
  let b := p.2.2.1
  let c := p.2.2.2
  let v1 := getV verts a
  let v2 := getV verts b
  let v3 := getV verts c
  let triangleArea := calculateTriangleArea v1 v2 v3
  let centroid := ((((⟨0, 0, 0⟩ : Vec3).add v1).add v2).add v3).divideScalar 3
  let normal := jsNormalize ((v2.sub v1).cross (v3.sub v1))
  let shadowFraction := isPointInShadow centroid lightPos objs (jits p.1) 50
  if isVertical normal then
    { acc with
      totalVerticalArea := acc.totalVerticalArea + triangleArea,
      totalShadowFractionVertical :=
        acc.totalShadowFractionVertical + shadowFraction * triangleArea,
      bipvValues := acc.bipvValues ++
        [⟨a, b, c, GHI * triangleArea * (1 - shadowFraction) * 0.15, FaceType.Vertical⟩] }
  else
    { acc with
      totalRooftopArea := acc.totalRooftopArea + triangleArea,
      totalShadowFractionRooftop :=
        acc.totalShadowFractionRooftop + shadowFraction * triangleArea,
      bipvValues := acc.bipvValues ++
        [⟨a, b, c, GHI * triangleArea * (1 - shadowFraction) * 0.15, FaceType.Rooftop⟩] }

/-- The full face loop: fold `processFace` over the enumerated face list,
starting from all-zero accumulators. -/
noncomputable def calcAccum (GHI : ℝ) (verts : List ℝ) (lightPos : Vec3)
    (objs : List SceneObject) (jits : ℕ → ℕ → Vec3) (idxList : List ℕ) : CalcAccum :=
  ((faceIndices idxList).enum).foldl (processFace GHI verts lightPos objs jits) ⟨0, 0, 0, 0, []⟩

/-- The Shadow & PV estimator (`calculateRooftopArea`, shadowCalculate.ts
lines 48–143).  `GHI` and `totalDaytime` are the values the source reads
from the `ghi` and `dateInput` DOM inputs (via SunCalc for the daytime);
`lightPos` is `light.position`; `objs` is the scene graph; `jits` is the
jitter source; `display` is the info-card DOM state.  A geometry without a
triangle index returns an empty list and leaves the display untouched;
otherwise the per-face loop runs, the aggregates are derived and written
to the info card, and the per-face list is returned. -/
noncomputable def calculateRooftopArea (GHI totalDaytime : ℝ) (jits : ℕ → ℕ → Vec3)
    (building : BuildingState) (lightPos : Vec3) (objs : List SceneObject)
    (display : DisplayState) : List BipvValue × DisplayState :=
  match building.index with
  | none => ([], display)
  | some idxList =>
    let acc := calcAccum GHI building.vertices lightPos objs jits idxList
    let totalArea := acc.totalRooftopArea + acc.totalVerticalArea
    let totalShadowFraction :=
      jsdiv (acc.totalShadowFractionRooftop + acc.totalShadowFractionVertical) totalArea
    let totalPVValue := totalShadowFraction.map (fun s => GHI * totalArea * (1 - s) * 0.15)
    let averageShadowFractionRooftop := totalShadowFraction.map (fun s => s * 0.1753)
    let pvValueRooftop :=
      averageShadowFractionRooftop.map (fun s => GHI * acc.totalRooftopArea * (1 - s) * 0.15)
    (acc.bipvValues,
     updateInfoCard (if building.name = "" then "Unknown Building" else building.name)
       totalDaytime totalArea acc.totalRooftopArea totalShadowFraction
       averageShadowFractionRooftop totalPVValue pvValueRooftop display)

/-- RGB color with real components, modelling `THREE.Color`. -/
@[ext] structure JsColor where
  r : ℝ
  g : ℝ
  b : ℝ

/-- The start color `0xffa500` of the face-color gradient. -/
noncomputable def colorStart : JsColor := ⟨1, 165 / 255, 0⟩

/-- The end color `0xff4500` of the face-color gradient. -/
noncomputable def colorEnd : JsColor := ⟨1, 69 / 255, 0⟩

/-- Linear interpolation of colors, as three.js `Color.lerp`:
each component moves by `(target − this) * alpha`, with no clamping. -/
noncomputable def lerpColor (c1 c2 : JsColor) (alpha : ℝ) : JsColor :=
  ⟨c1.r + (c2.r - c1.r) * alpha, c1.g + (c2.g - c1.g) * alpha, c1.b + (c2.b - c1.b) * alpha⟩

/-- Face-color mapping (`getColorForValue`, useThree.ts): lerp the two fixed
endpoint colors at ratio `(value − min) / (max − min)`.  `none` models the
non-finite color components produced when `max = min` (division by zero). -/
noncomputable def getColorForValue (value minv maxv : ℝ) : Option JsColor :=
  (jsdiv (value - minv) (maxv - minv)).map (fun t => lerpColor colorStart colorEnd t)

/-- Write one vertex's color components into the flat color array
(`colors[v*3..v*3+2]`); `none` entries model `NaN` floats. -/
def writeVertexColor (cols : List (Option ℝ)) (v : ℕ) (col : Option JsColor) : List (Option ℝ) :=
  ((cols.set (v * 3) (col.map (fun c => c.r))).set (v * 3 + 1) (col.map (fun c => c.g))).set
    (v * 3 + 2) (col.map (fun c => c.b))

/-- Write one face's color to its three vertices, as the `forEach` body of
`onBuildingClick`. -/
def writeFaceColor (cols : List (Option ℝ)) (a b c : ℕ) (col : Option JsColor) :
    List (Option ℝ) :=
  writeVertexColor (writeVertexColor (writeVertexColor cols a col) b col) c col

/-- Build the vertex-color buffer of `onBuildingClick`: a zero-initialized
`Float32Array` of `3 * count` entries, then one color per face written to
its three vertices, using the min/max of the per-face values
(`Math.min`/`Math.max` over a spread empty list give `±Infinity`, but the
fold is empty in that case so the defaults are never used). -/
noncomputable def colorsArray (count : ℕ) (bipvs : List BipvValue) : List (Option ℝ) :=
  let vals := bipvs.map (fun v => v.bipvValue)
  let minBipv := vals.min?.getD 0
  let maxBipv := vals.max?.getD 0
  bipvs.foldl
    (fun cols r => writeFaceColor cols r.a r.b r.c (getColorForValue r.bipvValue minBipv maxBipv))
    (List.replicate (3 * count) (some 0))

/-- The building-click flow for the clicked mesh (`onBuildingClick`,
useThree.ts lines 221–254, once the mouse ray hit this building): install
the highlight material, run the estimator, then build the vertex-color
attribute from the returned per-face values, install it on the geometry
and enable `vertexColors` on the material. -/
noncomputable def onBuildingClick (GHI totalDaytime : ℝ) (jits : ℕ → ℕ → Vec3)
    (building : BuildingState) (lightPos : Vec3) (objs : List SceneObject)
    (display : DisplayState) : BuildingState × DisplayState :=
  let highlightedB := { building with highlighted := true }
  let res := calculateRooftopArea GHI totalDaytime jits building lightPos objs display
  let count := building.vertices.length / 3
  let colors := colorsArray count res.1
  ({ highlightedB with colorAttr := some colors, vertexColors := true }, res.2)

/-- Astronomical sun position: azimuth and altitude in radians. -/
structure SunPos where
  azimuth : ℝ
  altitude : ℝ

/-- The directional light state mutated by `updateSunPosition`: position
components are `Option ℝ` because an invalid date propagates `NaN` into
them (`none`); the target position and intensity stay finite. -/
structure SunLight where
  posX : Option ℝ
  posY : Option ℝ
  posZ : Option ℝ
  targetPos : Vec3
  intensity : ℝ

/-- The light-position formula of `updateSunPosition` (sunPosition.ts lines
305–308): spherical placement at the given radius, `y` vertical. -/
noncomputable def computeLightVector (azimuth altitude radius : ℝ) : Vec3 :=
  ⟨radius * Real.cos azimuth * Real.cos altitude,
   radius * Real.sin altitude,
   radius * Real.sin azimuth * Real.cos altitude⟩

/-- Two-digit zero padding, as `toString().padStart(2, '0')`. -/
def pad2 (n : ℕ) : String :=
  let s := toString n
  if s.length < 2 then "0" ++ s else s

/-- The `HH:MM` string built from the time slider's minutes-since-midnight
value. -/
def timeString (sliderValue : ℕ) : String :=
  let hours := sliderValue / 60
  let minutes := sliderValue % 60
  pad2 hours ++ ":" ++ pad2 minutes

/-- The sun-position update (`updateSunPosition`, sunPosition.ts lines
288–328).  `parseDate` models `new Date(s).getTime()` with `none` for an
invalid (unparseable) date; `getPosition` models `SunCalc.getPosition` on
a valid timestamp; `dateValue` is the date input's value with `none` for a
missing input element; `sliderValue` is the parsed time-slider value.  A
missing or empty date aborts with `none` before touching the light.  Any
other date string proceeds: an unparseable one yields `NaN` sun angles, so
the position components become `NaN` (`none`) and `NaN < 0` being false
sets intensity 5; a parseable one places the light on the sphere of radius
1500 and sets intensity 0 below the horizon and 5 otherwise. -/
noncomputable def updateSunPosition (parseDate : String → Option ℝ)
    (getPosition : ℝ → SunPos) (dateValue : Option String) (sliderValue : ℕ)
    (light : SunLight) : Option (Option ℝ × Option ℝ × Option ℝ) × SunLight :=
  match dateValue with
  | none => (none, light)
  | some dv =>
    if dv = "" then (none, light)
    else
      let timeInput := timeString sliderValue
      match parseDate (dv ++ "T" ++ timeInput) with
      | some t =>
        let sunPos := getPosition t
        let v := computeLightVector sunPos.azimuth sunPos.altitude 1500
        (some (some v.x, some v.y, some v.z),
         { light with
           posX := some v.x, posY := some v.y, posZ := some v.z,
           targetPos := ⟨0, 0, 0⟩,
           intensity := if sunPos.altitude < 0 then 0 else 5 })
      | none =>
        (some (none, none, none),
         { light with
           posX := none, posY := none, posZ := none,
           targetPos := ⟨0, 0, 0⟩,
           intensity := 5 })

/-- Area of the face `f` of the flat vertex array, as computed in the loop. -/
noncomputable def faceArea (verts : List ℝ) (f : ℕ × ℕ × ℕ) : ℝ :=
  calculateTriangleArea (getV verts f.1) (getV verts f.2.1) (getV verts f.2.2)

/-- Centroid of the face `f`, as computed in the loop
(`new Vector3().add(v1).add(v2).add(v3).divideScalar(3)`). -/
noncomputable def faceCentroid (verts : List ℝ) (f : ℕ × ℕ × ℕ) : Vec3 :=
  ((((⟨0, 0, 0⟩ : Vec3).add (getV verts f.1)).add (getV verts f.2.1)).add
    (getV verts f.2.2)).divideScalar 3

/-- Outward normal of the face `f`, as computed in the loop
(`crossVectors(v2 − v1, v3 − v1).normalize()`). -/
noncomputable def faceNormal (verts : List ℝ) (f : ℕ × ℕ × ℕ) : Vec3 :=
  jsNormalize (((getV verts f.2.1).sub (getV verts f.1)).cross
    ((getV verts f.2.2).sub (getV verts f.1)))

/-- Whether the face `f` is classified Vertical. -/
def faceIsVertical (verts : List ℝ) (f : ℕ × ℕ × ℕ) : Prop :=
  isVertical (faceNormal verts f)

/-- Shadow fraction of the enumerated face `p`, sampled from its centroid
with that face's jitter sequence and 50 rays. -/
noncomputable def faceShadow (verts : List ℝ) (lightPos : Vec3) (objs : List SceneObject)
    (jits : ℕ → ℕ → Vec3) (p : ℕ × ℕ × ℕ × ℕ) : ℝ :=
  isPointInShadow (faceCentroid verts p.2) lightPos objs (jits p.1) 50

/-- The per-face PV value `GHI * area * (1 − shadowFraction) * 0.15`. -/
noncomputable def faceBipv (GHI : ℝ) (verts : List ℝ) (lightPos : Vec3)
    (objs : List SceneObject) (jits : ℕ → ℕ → Vec3) (p : ℕ × ℕ × ℕ × ℕ) : ℝ :=
  GHI * faceArea verts p.2 * (1 - faceShadow verts lightPos objs jits p) * 0.15

/-- The per-face record the loop appends for the enumerated face `p`. -/
noncomputable def faceRecord (GHI : ℝ) (verts : List ℝ) (lightPos : Vec3)
    (objs : List SceneObject) (jits : ℕ → ℕ → Vec3) (p : ℕ × ℕ × ℕ × ℕ) : BipvValue :=
  ⟨p.2.1, p.2.2.1, p.2.2.2, faceBipv GHI verts lightPos objs jits p,
   if faceIsVertical verts p.2 then FaceType.Vertical else FaceType.Rooftop⟩

/-- Sum of the areas of the Rooftop-classified faces of an enumerated face
list. -/
noncomputable def roofAreaSum (verts : List ℝ) (faces : List (ℕ × ℕ × ℕ × ℕ)) : ℝ :=
  (faces.map (fun p => if faceIsVertical verts p.2 then 0 else faceArea verts p.2)).sum

/-- Sum of the areas of the Vertical-classified faces. -/
noncomputable def vertAreaSum (verts : List ℝ) (faces : List (ℕ × ℕ × ℕ × ℕ)) : ℝ :=
  (faces.map (fun p => if faceIsVertical verts p.2 then faceArea verts p.2 else 0)).sum

/-- Area-weighted shadow sum over the Rooftop-classified faces. -/
noncomputable def roofShadowSum (verts : List ℝ) (lightPos : Vec3)
    (objs : List SceneObject) (jits : ℕ → ℕ → Vec3) (faces : List (ℕ × ℕ × ℕ × ℕ)) : ℝ :=
  (faces.map (fun p => if faceIsVertical verts p.2 then 0
    else faceShadow verts lightPos objs jits p * faceArea verts p.2)).sum

/-- Area-weighted shadow sum over the Vertical-classified faces. -/
noncomputable def vertShadowSum (verts : List ℝ) (lightPos : Vec3)
    (objs : List SceneObject) (jits : ℕ → ℕ → Vec3) (faces : List (ℕ × ℕ × ℕ × ℕ)) : ℝ :=
  (faces.map (fun p => if faceIsVertical verts p.2 then
    faceShadow verts lightPos objs jits p * faceArea verts p.2 else 0)).sum

/-- A one-face demonstration mesh: a right triangle of area 1/2 lying in
the horizontal plane `y = 0`. -/
noncomputable def demoVerts : List ℝ := [0, 0, 0, 1, 0, 0, 0, 0, 1]

/-- A fixed zero jitter source for demonstrations. -/
def demoJit : ℕ → ℕ → Vec3 := fun _ _ => ⟨0, 0, 0⟩

/-- A scene object whose geometry every ray hits. -/
def allHitObj : SceneObject := ⟨"B", fun _ => true⟩

/-- The blank display state: info card empty and hidden. -/
def emptyDisplay : DisplayState := ⟨none, false⟩

/-- A degenerate one-face mesh: three distinct vertex slots all holding
the same point `(1, 2, 3)`, so the triangle has zero area. -/
noncomputable def degenVerts : List ℝ := [1, 2, 3, 1, 2, 3, 1, 2, 3]

/-- The demonstration building built on `demoVerts`, with a triangle index. -/
noncomputable def demoBuilding : BuildingState :=
  ⟨"B", demoVerts, some [0, 1, 2], false, none, false⟩

/-- A building whose single face is degenerate (all corners coincide). -/
noncomputable def degenBuilding : BuildingState :=
  ⟨"B", degenVerts, some [0, 1, 2], false, none, false⟩

/-- A building whose geometry has no triangle index (non-indexed mesh). -/
noncomputable def noIndexBuilding : BuildingState :=
  ⟨"B", [0, 0, 0], none, false, none, false⟩

/-! ### Helper lemmas -/

/-- Unfolding of one loop iteration in terms of the per-face helper
functions: the two classification branches differ only in which
accumulators receive the contribution and in the record's tag. -/
theorem processFace_spec (GHI : ℝ) (verts : List ℝ) (lightPos : Vec3)
    (objs : List SceneObject) (jits : ℕ → ℕ → Vec3) (acc : CalcAccum)
    (p : ℕ × ℕ × ℕ × ℕ) :
    processFace GHI verts lightPos objs jits acc p =
      if faceIsVertical verts p.2 then
        { acc with
          totalVerticalArea := acc.totalVerticalArea + faceArea verts p.2,
          totalShadowFractionVertical := acc.totalShadowFractionVertical +
            faceShadow verts lightPos objs jits p * faceArea verts p.2,
          bipvValues := acc.bipvValues ++
            [⟨p.2.1, p.2.2.1, p.2.2.2, faceBipv GHI verts lightPos objs jits p,
              FaceType.Vertical⟩] }
      else
        { acc with
          totalRooftopArea := acc.totalRooftopArea + faceArea verts p.2,
          totalShadowFractionRooftop := acc.totalShadowFractionRooftop +
            faceShadow verts lightPos objs jits p * faceArea verts p.2,
          bipvValues := acc.bipvValues ++
            [⟨p.2.1, p.2.2.1, p.2.2.2, faceBipv GHI verts lightPos objs jits p,
              FaceType.Rooftop⟩] } := rfl

/-- The face loop computes, over any enumerated face list, the four
per-category sums and the list of per-face records. -/
theorem calcFold (GHI : ℝ) (verts : List ℝ) (lightPos : Vec3)
    (objs : List SceneObject) (jits : ℕ → ℕ → Vec3)
    (faces : List (ℕ × ℕ × ℕ × ℕ)) :
    ∀ acc : CalcAccum,
      List.foldl (processFace GHI verts lightPos objs jits) acc faces =
        ⟨acc.totalRooftopArea + roofAreaSum verts faces,
         acc.totalVerticalArea + vertAreaSum verts faces,
         acc.totalShadowFractionRooftop + roofShadowSum verts lightPos objs jits faces,
         acc.totalShadowFractionVertical + vertShadowSum verts lightPos objs jits faces,
         acc.bipvValues ++ faces.map (faceRecord GHI verts lightPos objs jits)⟩ := by
  induction faces with
  | nil =>
    intro acc
    simp [roofAreaSum, vertAreaSum, roofShadowSum, vertShadowSum]
  | cons p rest ih =>
    intro acc
    rw [List.foldl_cons, ih, processFace_spec]
    by_cases h : faceIsVertical verts p.2
    · rw [if_pos h]
      simp [roofAreaSum, vertAreaSum, roofShadowSum, vertShadowSum, faceRecord, h,
        CalcAccum.mk.injEq, add_assoc, List.append_assoc]
    · rw [if_neg h]
      simp [roofAreaSum, vertAreaSum, roofShadowSum, vertShadowSum, faceRecord, h,
        CalcAccum.mk.injEq, add_assoc, List.append_assoc]

/-- The name filter keeps an object exactly when its name is not `"Sky"`
(an empty name passes the first branch, and is in particular not `"Sky"`). -/
theorem filterCond_iff (o : SceneObject) :
    ((if o.name = "" then true else decide (o.name ≠ "Sky")) = true) ↔ o.name ≠ "Sky" := by
  by_cases hn : o.name = ""
  · simp only [hn, if_pos rfl, true_iff]
    decide
  · simp [hn]

/-- A ray has a valid intersection exactly when some scene object is hit
and is not named `"Sky"`. -/
theorem validIntersects_pos_iff (objs : List SceneObject) (r : SRay) :
    0 < (validIntersects objs r).length ↔
      ∃ o ∈ objs, o.hit r = true ∧ o.name ≠ "Sky" := by
  rw [List.length_pos]
  constructor
  · intro h
    obtain ⟨o, ho⟩ := List.exists_mem_of_ne_nil _ h
    rw [validIntersects, List.mem_filter, List.mem_filter] at ho
    exact ⟨o, ho.1.1, ho.1.2, (filterCond_iff o).1 ho.2⟩
  · rintro ⟨o, hmem, hhit, hname⟩
    have ho : o ∈ validIntersects objs r := by
      rw [validIntersects, List.mem_filter, List.mem_filter]
      exact ⟨⟨hmem, hhit⟩, (filterCond_iff o).2 hname⟩
    exact List.ne_nil_of_mem ho

/-- An empty scene yields no intersections. -/
@[simp] theorem validIntersects_nil (r : SRay) : validIntersects [] r = [] := rfl

/-- The all-hit object is always a valid intersection. -/
@[simp] theorem validIntersects_allHit (r : SRay) :
    validIntersects [allHitObj] r = [allHitObj] := rfl

/-- With no occluders in the scene the shadow fraction is zero. -/
theorem isPointInShadow_nil (point lightPos : Vec3) (jit : ℕ → Vec3) (numRays : ℕ) :
    isPointInShadow point lightPos [] jit numRays = 0 := by
  unfold isPointInShadow
  simp

/-- With an occluder every ray hits, all 50 rays are shadowed. -/
theorem isPointInShadow_allHit (point lightPos : Vec3) (jit : ℕ → Vec3) :
    isPointInShadow point lightPos [allHitObj] jit 50 = 1 := by
  unfold isPointInShadow
  simp

/-- Per-face shadow fraction in an empty scene is zero. -/
theorem faceShadow_nil (verts : List ℝ) (lightPos : Vec3) (jits : ℕ → ℕ → Vec3)
    (p : ℕ × ℕ × ℕ × ℕ) : faceShadow verts lightPos [] jits p = 0 := by
  unfold faceShadow
  exact isPointInShadow_nil _ _ _ _

/-- Per-face shadow fraction under the all-hit occluder is one. -/
theorem faceShadow_allHit (verts : List ℝ) (lightPos : Vec3) (jits : ℕ → ℕ → Vec3)
    (p : ℕ × ℕ × ℕ × ℕ) : faceShadow verts lightPos [allHitObj] jits p = 1 := by
  unfold faceShadow
  exact isPointInShadow_allHit _ _ _

/-- Normalizing the zero vector leaves it unchanged (three.js `|| 1` guard). -/
@[simp] theorem jsNormalize_zero : jsNormalize ⟨0, 0, 0⟩ = ⟨0, 0, 0⟩ := by
  unfold jsNormalize Vec3.divideScalar Vec3.length Vec3.lengthSq
  norm_num

/-- The up vector is already normalized. -/
@[simp] theorem jsNormalize_up : jsNormalize ⟨0, 1, 0⟩ = ⟨0, 1, 0⟩ := by
  unfold jsNormalize Vec3.divideScalar Vec3.length Vec3.lengthSq
  norm_num

/-- The down vector is already normalized. -/
@[simp] theorem jsNormalize_down : jsNormalize ⟨0, -1, 0⟩ = ⟨0, -1, 0⟩ := by
  unfold jsNormalize Vec3.divideScalar Vec3.length Vec3.lengthSq
  norm_num

/-- First vertex of the demo mesh. -/
@[simp] theorem getV_demo_zero : getV demoVerts 0 = ⟨0, 0, 0⟩ := rfl

/-- Second vertex of the demo mesh. -/
@[simp] theorem getV_demo_one : getV demoVerts 1 = ⟨1, 0, 0⟩ := rfl

/-- Third vertex of the demo mesh. -/
@[simp] theorem getV_demo_two : getV demoVerts 2 = ⟨0, 0, 1⟩ := rfl

/-- First vertex slot of the degenerate mesh. -/
@[simp] theorem getV_degen_zero : getV degenVerts 0 = ⟨1, 2, 3⟩ := rfl

/-- Second vertex slot of the degenerate mesh. -/
@[simp] theorem getV_degen_one : getV degenVerts 1 = ⟨1, 2, 3⟩ := rfl

/-- Third vertex slot of the degenerate mesh. -/
@[simp] theorem getV_degen_two : getV degenVerts 2 = ⟨1, 2, 3⟩ := rfl

/-- The demo index list holds a single enumerated face. -/
@[simp] theorem demo_faces :
    (faceIndices [0, 1, 2]).enum = [(0, ((0 : ℕ), (1 : ℕ), (2 : ℕ)))] := rfl

/-- Area of the demo face: a right triangle with legs 1, so area 1/2. -/
theorem demo_face_area : faceArea demoVerts (0, 1, 2) = 0.5 := by
  unfold faceArea calculateTriangleArea
  rw [getV_demo_zero, getV_demo_one, getV_demo_two]
  unfold Vec3.sub Vec3.cross Vec3.length Vec3.lengthSq
  norm_num

/-- Normal of the demo face: straight down. -/
theorem demo_normal : faceNormal demoVerts (0, 1, 2) = ⟨0, -1, 0⟩ := by
  unfold faceNormal
  rw [getV_demo_zero, getV_demo_one, getV_demo_two]
  norm_num [Vec3.sub, Vec3.cross]

/-- The demo face is classified Rooftop: its normal is antiparallel to up,
so the angle is π, a half-circle away from 90°. -/
theorem demo_not_vertical : ¬ faceIsVertical demoVerts (0, 1, 2) := by
  have hpi := Real.pi_pos
  unfold faceIsVertical
  rw [demo_normal]
  unfold isVertical
  rw [jsNormalize_down, jsNormalize_up]
  unfold Vec3.angleTo clampR
  norm_num [Vec3.lengthSq, Vec3.dot, Real.arccos_neg_one]
  rw [show Real.pi - Real.pi / 2 = Real.pi / 2 by ring,
    abs_of_nonneg (by linarith : (0 : ℝ) ≤ Real.pi / 2)]
  linarith

/-- Area of the degenerate face is zero. -/
theorem degen_face_area : faceArea degenVerts (0, 1, 2) = 0 := by
  unfold faceArea calculateTriangleArea
  rw [getV_degen_zero, getV_degen_one, getV_degen_two]
  unfold Vec3.sub Vec3.cross Vec3.length Vec3.lengthSq
  norm_num

/-- Normal of the degenerate face: the zero vector. -/
theorem degen_normal : faceNormal degenVerts (0, 1, 2) = ⟨0, 0, 0⟩ := by
  unfold faceNormal
  rw [getV_degen_zero, getV_degen_one, getV_degen_two]
  norm_num [Vec3.sub, Vec3.cross]

/-- The degenerate face is classified Vertical: `angleTo` returns π/2 for
a zero denominator, which is within tolerance of 90°. -/
theorem degen_vertical : faceIsVertical degenVerts (0, 1, 2) := by
  have hpi := Real.pi_pos
  unfold faceIsVertical
  rw [degen_normal]
  unfold isVertical
  rw [jsNormalize_zero, jsNormalize_up]
  unfold Vec3.angleTo
  norm_num [Vec3.lengthSq]
  positivity

/-- Full accumulator evaluation for the demo mesh in an empty scene: one
Rooftop face of area 1/2 with shadow fraction 0. -/
theorem demoAccum_nil (GHI : ℝ) (lightPos : Vec3) :
    calcAccum GHI demoVerts lightPos [] demoJit [0, 1, 2] =
      ⟨0.5, 0, 0, 0, [⟨0, 1, 2, GHI * 0.5 * (1 - 0) * 0.15, FaceType.Rooftop⟩]⟩ := by
  unfold calcAccum
  rw [demo_faces, calcFold]
  simp [roofAreaSum, vertAreaSum, roofShadowSum, vertShadowSum, faceRecord, faceBipv,
    demo_not_vertical, demo_face_area, faceShadow_nil]

/-- Full accumulator evaluation for the demo mesh under the all-hit
occluder: one Rooftop face of area 1/2 with shadow fraction 1. -/
theorem demoAccum_allHit (GHI : ℝ) (lightPos : Vec3) :
    calcAccum GHI demoVerts lightPos [allHitObj] demoJit [0, 1, 2] =
      ⟨0.5, 0, 0.5, 0, [⟨0, 1, 2, 0, FaceType.Rooftop⟩]⟩ := by
  unfold calcAccum
  rw [demo_faces, calcFold]
  simp [roofAreaSum, vertAreaSum, roofShadowSum, vertShadowSum, faceRecord, faceBipv,
    demo_not_vertical, demo_face_area, faceShadow_allHit]

/-- Full accumulator evaluation for the degenerate mesh: one Vertical face
contributing zero area, zero shadow weight and zero PV. -/
theorem degenAccum (GHI : ℝ) (lightPos : Vec3) :
    calcAccum GHI degenVerts lightPos [] demoJit [0, 1, 2] =
      ⟨0, 0, 0, 0, [⟨0, 1, 2, 0, FaceType.Vertical⟩]⟩ := by
  unfold calcAccum
  rw [demo_faces, calcFold]
  simp [roofAreaSum, vertAreaSum, roofShadowSum, vertShadowSum, faceRecord, faceBipv,
    degen_vertical, degen_face_area, faceShadow_nil]

/-! ### Claim theorems -/

/-- C8: for every azimuth/altitude pair, the computed light position
`(1500·cos az·cos alt, 1500·sin alt, 1500·sin az·cos alt)` has Euclidean
magnitude exactly 1500 — the light source always lies on the sphere of
radius 1500 units around the origin. -/
theorem C8_lightSphere (azimuth altitude : ℝ) :
    (computeLightVector azimuth altitude 1500).length = 1500 := by
  have h : (computeLightVector azimuth altitude 1500).lengthSq = 1500 ^ 2 := by
    simp only [computeLightVector, Vec3.lengthSq]
    linear_combination (1500 ^ 2 * Real.cos altitude ^ 2) * Real.sin_sq_add_cos_sq azimuth +
      (1500 : ℝ) ^ 2 * Real.sin_sq_add_cos_sq altitude
  rw [Vec3.length, h]
  exact Real.sqrt_sq (by norm_num)

/-- C9 counterexample: `getColorForValue` does not clamp the ratio.  At
`value = 2, min = 0, max = 1` the ratio is 2 and the green component
extrapolates to `−27/255 < 0`, an out-of-range color differing from the
clamped-ratio color; and at `min = max` the division by zero yields no
finite color at all. -/
theorem C9_counterexample :
    getColorForValue 2 0 1 = some ⟨1, -27 / 255, 0⟩ ∧
    ((-27 : ℝ) / 255 < 0) ∧
    getColorForValue 2 0 1 ≠ some (lerpColor colorStart colorEnd 1) ∧
    getColorForValue 1 0 0 = none := by
  refine ⟨?_, by norm_num, ?_, ?_⟩
  · norm_num [getColorForValue, jsdiv, lerpColor, colorStart, colorEnd]
  · intro h
    norm_num [getColorForValue, jsdiv, lerpColor, colorStart, colorEnd,
      JsColor.mk.injEq] at h
  · norm_num [getColorForValue, jsdiv]

/-- C9 amended: `getColorForValue` is the unclamped linear interpolation at
ratio `(value − min)/(max − min)`; whenever `min < max` and the value lies
within `[min, max]`, the ratio lies in `[0, 1]` and the resulting color is
a well-defined in-range color on the fixed gradient. -/
theorem C9_colorLerp (value minv maxv : ℝ) (h1 : minv < maxv) (h2 : minv ≤ value)
    (h3 : value ≤ maxv) :
    ∃ c, getColorForValue value minv maxv = some c ∧
      c = lerpColor colorStart colorEnd ((value - minv) / (maxv - minv)) ∧
      0 ≤ (value - minv) / (maxv - minv) ∧ (value - minv) / (maxv - minv) ≤ 1 ∧
      c.r = 1 ∧ c.b = 0 ∧ 69 / 255 ≤ c.g ∧ c.g ≤ 165 / 255 := by
  have hd : (0 : ℝ) < maxv - minv := by linarith
  have ht0 : 0 ≤ (value - minv) / (maxv - minv) := div_nonneg (by linarith) (le_of_lt hd)
  have ht1 : (value - minv) / (maxv - minv) ≤ 1 := (div_le_one hd).2 (by linarith)
  refine ⟨lerpColor colorStart colorEnd ((value - minv) / (maxv - minv)),
    ?_, rfl, ht0, ht1, ?_, ?_, ?_, ?_⟩
  · simp [getColorForValue, jsdiv, ne_of_gt hd]
  · simp [lerpColor, colorStart, colorEnd]
  · simp [lerpColor, colorStart, colorEnd]
  · simp only [lerpColor, colorStart, colorEnd]
    linarith
  · simp only [lerpColor, colorStart, colorEnd]
    linarith

/-- C9 witness: a value in the middle of a nondegenerate range gets a
well-defined in-range color. -/
theorem C9_witness :
    ∃ c, getColorForValue 0.5 0 1 = some c ∧
      c = lerpColor colorStart colorEnd ((0.5 - 0) / (1 - 0)) ∧
      0 ≤ ((0.5 : ℝ) - 0) / (1 - 0) ∧ ((0.5 : ℝ) - 0) / (1 - 0) ≤ 1 ∧
      c.r = 1 ∧ c.b = 0 ∧ 69 / 255 ≤ c.g ∧ c.g ≤ 165 / 255 :=
  C9_colorLerp 0.5 0 1 (by norm_num) (by norm_num) (by norm_num)

/-- C10: a sample ray counts as shadowed exactly when some scene object is
hit whose name is not exactly `"Sky"` — objects with an empty name pass
the filter — and in particular any non-`"Sky"` member of the occluder
list, such as the clicked building itself, can block the ray. -/
theorem C10_occluderFilter :
    (∀ (objs : List SceneObject) (r : SRay),
       0 < (validIntersects objs r).length ↔
         ∃ o ∈ objs, o.hit r = true ∧ o.name ≠ "Sky") ∧
    (∀ (o : SceneObject) (objs : List SceneObject) (r : SRay),
       o ∈ objs → o.hit r = true → o.name ≠ "Sky" →
       0 < (validIntersects objs r).length) :=
  ⟨validIntersects_pos_iff,
   fun o objs r h1 h2 h3 => (validIntersects_pos_iff objs r).2 ⟨o, h1, h2, h3⟩⟩

/-- C10 witness: an object with an empty name that the ray hits counts as
an occluder. -/
theorem C10_witness :
    0 < (validIntersects [⟨"", fun _ => true⟩] ⟨⟨0, 0, 0⟩, ⟨0, 0, 0⟩⟩).length :=
  C10_occluderFilter.2 ⟨"", fun _ => true⟩ [⟨"", fun _ => true⟩] ⟨⟨0, 0, 0⟩, ⟨0, 0, 0⟩⟩
    (by simp) rfl (by decide)

/-- C7 counterexample: a present but malformed date string (modelled by a
parse that yields no timestamp, as `new Date("bananaT12:00")` does) is not
rejected: the light is mutated — position set to `NaN` (`none`) components,
target re-centred, intensity set to 5 — and a non-null result is returned,
contradicting the claim that every invalid date aborts before mutating. -/
theorem C7_counterexample :
    updateSunPosition (fun _ => none) (fun _ => ⟨0, 0⟩) (some "banana") 720
        ⟨some 1, some 2, some 3, ⟨1, 1, 1⟩, 7⟩ =
      (some (none, none, none), ⟨none, none, none, ⟨0, 0, 0⟩, 5⟩) ∧
    (⟨none, none, none, ⟨0, 0, 0⟩, 5⟩ : SunLight) ≠
      ⟨some 1, some 2, some 3, ⟨1, 1, 1⟩, 7⟩ := by
  constructor
  · rfl
  · intro h
    have h5 := congrArg SunLight.intensity h
    norm_num at h5

/-- C7 amended: a missing date input or an empty date value aborts with no
light mutation and a null result; but a present malformed date string is
not detected — the light's position is overwritten with `NaN` components,
its target is re-centred and its intensity set to 5. -/
theorem C7_dateHandling :
    (∀ (parseDate : String → Option ℝ) (getPosition : ℝ → SunPos) (sliderValue : ℕ)
       (light : SunLight),
       updateSunPosition parseDate getPosition none sliderValue light = (none, light)) ∧
    (∀ (parseDate : String → Option ℝ) (getPosition : ℝ → SunPos) (sliderValue : ℕ)
       (light : SunLight),
       updateSunPosition parseDate getPosition (some "") sliderValue light = (none, light)) ∧
    (∀ (parseDate : String → Option ℝ) (getPosition : ℝ → SunPos) (dv : String)
       (sliderValue : ℕ) (light : SunLight),
       dv ≠ "" → parseDate (dv ++ "T" ++ timeString sliderValue) = none →
       (updateSunPosition parseDate getPosition (some dv) sliderValue light).2 =
         ⟨none, none, none, ⟨0, 0, 0⟩, 5⟩) := by
  refine ⟨fun _ _ _ _ => rfl, fun _ _ _ _ => rfl, ?_⟩
  intro parseDate getPosition dv sliderValue light hdv hpd
  simp only [updateSunPosition]
  rw [if_neg hdv, hpd]

/-- C7 witness: a nonempty unparseable date string leaves the light
mutated to the `NaN` state. -/
theorem C7_witness :
    ("x" : String) ≠ "" ∧
    (updateSunPosition (fun _ => none) (fun _ => ⟨0, 0⟩) (some "x") 0
        ⟨some 1, some 1, some 1, ⟨1, 1, 1⟩, 0⟩).2 = ⟨none, none, none, ⟨0, 0, 0⟩, 5⟩ :=
  ⟨by decide, C7_dateHandling.2.2 (fun _ => none) (fun _ => ⟨0, 0⟩) "x" 0
    ⟨some 1, some 1, some 1, ⟨1, 1, 1⟩, 0⟩ (by decide) rfl⟩

/-- C1: for every triangle of an indexed mesh, the per-face record carries
the PV value `GHI * area * (1 − shadowFraction) * 0.15`, with the shadow
fraction sampled from that face's centroid — the same formula whether the
face is classified Rooftop or Vertical (the right-hand side does not
mention the classification). -/
theorem C1_perFacePVFormula (GHI totalDaytime : ℝ) (jits : ℕ → ℕ → Vec3)
    (nm : String) (verts : List ℝ) (idxList : List ℕ) (hl vc : Bool)
    (ca : Option (List (Option ℝ))) (lightPos : Vec3) (objs : List SceneObject)
    (display : DisplayState) (j : ℕ) :
    ((calculateRooftopArea GHI totalDaytime jits ⟨nm, verts, some idxList, hl, ca, vc⟩
        lightPos objs display).1[j]?).map (fun r => (r.a, r.b, r.c, r.bipvValue)) =
      ((faceIndices idxList)[j]?).map (fun f =>
        (f.1, f.2.1, f.2.2,
         GHI * faceArea verts f *
           (1 - isPointInShadow (faceCentroid verts f) lightPos objs (jits j) 50) * 0.15)) := by
  simp only [calculateRooftopArea, calcAccum, calcFold, List.nil_append, List.getElem?_map,
    List.getElem?_enum, Option.map_map]
  cases hf : (faceIndices idxList)[j]? with
  | none => rfl
  | some f => simp [faceRecord, faceBipv, faceShadow]

/-- C2 counterexample: for a mesh with a single fully shadowed rooftop
face, the area-weighted rooftop shadow fraction is 1, but the reported
rooftop shadow fraction field is `totalShadowFraction * 0.1753 = 0.1753`,
not the per-category area-weighted average. -/
theorem C2_counterexample :
    ((calculateRooftopArea 1 0 demoJit demoBuilding ⟨0, 0, 0⟩ [allHitObj]
        emptyDisplay).2.card).map (fun ic => ic.averageShadowFractionRooftop) =
      some (some 0.1753) ∧
    ((calculateRooftopArea 1 0 demoJit demoBuilding ⟨0, 0, 0⟩ [allHitObj]
        emptyDisplay).2.card).map (fun ic => ic.totalRooftopArea) = some 0.5 ∧
    jsdiv (roofShadowSum demoVerts ⟨0, 0, 0⟩ [allHitObj] demoJit
        ((faceIndices [0, 1, 2]).enum)) 0.5 = some 1 ∧
    ((0.1753 : ℝ) ≠ 1) := by
  refine ⟨?_, ?_, ?_, by norm_num⟩
  · simp only [calculateRooftopArea, demoBuilding, demoAccum_allHit]
    norm_num [jsdiv, updateInfoCard]
  · simp only [calculateRooftopArea, demoBuilding, demoAccum_allHit]
    norm_num [jsdiv, updateInfoCard]
  · simp only [demo_faces, roofShadowSum, List.map_cons, List.map_nil, List.sum_cons,
      List.sum_nil]
    rw [if_neg demo_not_vertical]
    norm_num [demo_face_area, faceShadow_allHit, jsdiv]

/-- C2 amended: `totalRooftopArea` is the sum of rooftop-face areas,
`totalArea` their sum with the vertical-face areas, `totalShadowFraction`
the area-weighted average over `totalArea` (undefined when `totalArea` is
zero), and `totalPVValue = GHI * totalArea * (1 − totalShadowFraction) *
0.15`; but the reported per-category rooftop shadow fraction is
`totalShadowFraction * 0.1753`, not the rooftop area-weighted average. -/
theorem C2_aggregates (GHI totalDaytime : ℝ) (jits : ℕ → ℕ → Vec3) (nm : String)
    (verts : List ℝ) (idxList : List ℕ) (hl vc : Bool) (ca : Option (List (Option ℝ)))
    (lightPos : Vec3) (objs : List SceneObject) (display : DisplayState) :
    ∃ ic, (calculateRooftopArea GHI totalDaytime jits ⟨nm, verts, some idxList, hl, ca, vc⟩
        lightPos objs display).2.card = some ic ∧
      ic.totalRooftopArea = roofAreaSum verts (faceIndices idxList).enum ∧
      ic.totalArea = roofAreaSum verts (faceIndices idxList).enum +
        vertAreaSum verts (faceIndices idxList).enum ∧
      ic.totalShadowFraction = jsdiv
        (roofShadowSum verts lightPos objs jits (faceIndices idxList).enum +
         vertShadowSum verts lightPos objs jits (faceIndices idxList).enum) ic.totalArea ∧
      ic.totalPVValue = ic.totalShadowFraction.map (fun s => GHI * ic.totalArea * (1 - s) * 0.15) ∧
      ic.averageShadowFractionRooftop = ic.totalShadowFraction.map (fun s => s * 0.1753) := by
  simp only [calculateRooftopArea, calcAccum, calcFold, updateInfoCard, zero_add,
    List.nil_append]
  exact ⟨_, rfl, rfl, rfl, rfl, rfl, rfl⟩

/-- C3 counterexample: clicking a building whose geometry lacks a triangle
index makes the estimator return an empty result with the display
untouched, yet the caller has already installed the highlight material and
still installs an (all-zero) vertex-color attribute and enables vertex
colors on the mesh — it does proceed to highlight and color it. -/
theorem C3_counterexample :
    calculateRooftopArea 5.5 12 demoJit noIndexBuilding ⟨0, 0, 0⟩ [] emptyDisplay =
      ([], emptyDisplay) ∧
    (onBuildingClick 5.5 12 demoJit noIndexBuilding ⟨0, 0, 0⟩ [] emptyDisplay).1.highlighted =
      true ∧
    (onBuildingClick 5.5 12 demoJit noIndexBuilding ⟨0, 0, 0⟩ [] emptyDisplay).1.colorAttr =
      some (List.replicate 3 (some 0)) ∧
    (onBuildingClick 5.5 12 demoJit noIndexBuilding ⟨0, 0, 0⟩ [] emptyDisplay).1.vertexColors =
      true ∧
    noIndexBuilding.highlighted = false ∧
    (onBuildingClick 5.5 12 demoJit noIndexBuilding ⟨0, 0, 0⟩ [] emptyDisplay).2 =
      emptyDisplay := by
  refine ⟨rfl, rfl, ?_, rfl, rfl, rfl⟩
  rfl

/-- C3 amended: for a non-indexed mesh the estimator returns an empty
result and leaves the display untouched, but the caller highlights the
mesh before invoking the estimator and still installs a zero-filled
vertex-color attribute and enables vertex colors on it. -/
theorem C3_nonIndexedFlow (GHI totalDaytime : ℝ) (jits : ℕ → ℕ → Vec3) (nm : String)
    (verts : List ℝ) (hl vc : Bool) (ca : Option (List (Option ℝ))) (lightPos : Vec3)
    (objs : List SceneObject) (display : DisplayState) :
    calculateRooftopArea GHI totalDaytime jits ⟨nm, verts, none, hl, ca, vc⟩ lightPos objs
      display = ([], display) ∧
    (onBuildingClick GHI totalDaytime jits ⟨nm, verts, none, hl, ca, vc⟩ lightPos objs
        display).1 =
      ⟨nm, verts, none, true, some (List.replicate (3 * (verts.length / 3)) (some 0)), true⟩ ∧
    (onBuildingClick GHI totalDaytime jits ⟨nm, verts, none, hl, ca, vc⟩ lightPos objs
        display).2 = display := by
  exact ⟨rfl, rfl, rfl⟩

/-- C4 counterexample: running the estimator on an indexed mesh mutates
the display state itself — the info card becomes visible and filled — so
the estimator is not free of display-state writes. -/
theorem C4_counterexample :
    ((calculateRooftopArea 5.5 12 demoJit demoBuilding ⟨0, 0, 0⟩ [] emptyDisplay).2).infoCardVisible =
      true ∧
    emptyDisplay.infoCardVisible = false ∧
    (calculateRooftopArea 5.5 12 demoJit demoBuilding ⟨0, 0, 0⟩ [] emptyDisplay).2 ≠
      emptyDisplay := by
  have h1 : ((calculateRooftopArea 5.5 12 demoJit demoBuilding ⟨0, 0, 0⟩ []
      emptyDisplay).2).infoCardVisible = true := rfl
  refine ⟨h1, rfl, fun h => ?_⟩
  rw [h] at h1
  simp [emptyDisplay] at h1

/-- C4 amended: the estimator returns the per-face values as data, but it
writes the aggregates into the info-card display state itself (filling the
card and making it visible) whenever the mesh is indexed; only the
non-indexed early return leaves the display untouched. -/
theorem C4_displayWrite (GHI totalDaytime : ℝ) (jits : ℕ → ℕ → Vec3) (nm : String)
    (verts : List ℝ) (idxList : List ℕ) (hl vc : Bool) (ca : Option (List (Option ℝ)))
    (lightPos : Vec3) (objs : List SceneObject) (display : DisplayState) :
    ((calculateRooftopArea GHI totalDaytime jits ⟨nm, verts, some idxList, hl, ca, vc⟩
        lightPos objs display).2).infoCardVisible = true ∧
    ((calculateRooftopArea GHI totalDaytime jits ⟨nm, verts, some idxList, hl, ca, vc⟩
        lightPos objs display).2).card.isSome = true ∧
    (calculateRooftopArea GHI totalDaytime jits ⟨nm, verts, none, hl, ca, vc⟩
        lightPos objs display).2 = display := by
  exact ⟨rfl, rfl, rfl⟩

/-- C5 counterexample: at a sun altitude below the horizon the light's
intensity is set to 0, yet the PV estimate computed under that light is
unchanged by the intensity: the unshadowed demo face still gets
`5.5 * 0.5 * 0.15 = 0.4125`, not zero. -/
theorem C5_counterexample :
    (updateSunPosition (fun _ => some 0) (fun _ => ⟨0, -1⟩) (some "2024-06-01") 0
        ⟨some 0, some 0, some 0, ⟨0, 0, 0⟩, 5⟩).2.intensity = 0 ∧
    (calculateRooftopArea 5.5 0 demoJit demoBuilding
        (computeLightVector 0 (-1) 1500) [] emptyDisplay).1 =
      [⟨0, 1, 2, 0.4125, FaceType.Rooftop⟩] ∧
    ((calculateRooftopArea 5.5 0 demoJit demoBuilding
        (computeLightVector 0 (-1) 1500) [] emptyDisplay).2.card).map
      (fun ic => ic.totalPVValue) = some (some 0.4125) ∧
    ((0.4125 : ℝ) ≠ 0) := by
  refine ⟨?_, ?_, ?_, by norm_num⟩
  · simp only [updateSunPosition]
    rw [if_neg (by decide : ¬("2024-06-01" : String) = "")]
    norm_num
  · simp only [calculateRooftopArea, demoBuilding, demoAccum_nil]
    norm_num [BipvValue.mk.injEq]
  · simp only [calculateRooftopArea, demoBuilding, demoAccum_nil]
    norm_num [jsdiv, updateInfoCard]

/-- C5 amended: the light intensity is set to 0 exactly when the computed
altitude is below 0 and to the nominal 5 otherwise; but the per-face PV
value is `GHI * area * (1 − shadowFraction) * 0.15`, a formula with no
intensity term, so a PV estimate computed under a below-horizon
(intensity-0) light is not zeroed. -/
theorem C5_intensityAndPV :
    (∀ (parseDate : String → Option ℝ) (getPosition : ℝ → SunPos) (dv : String)
       (sliderValue : ℕ) (light : SunLight) (t : ℝ),
       dv ≠ "" → parseDate (dv ++ "T" ++ timeString sliderValue) = some t →
       (updateSunPosition parseDate getPosition (some dv) sliderValue light).2.intensity =
         if (getPosition t).altitude < 0 then 0 else 5) ∧
    (∀ (GHI totalDaytime : ℝ) (jits : ℕ → ℕ → Vec3) (nm : String) (verts : List ℝ)
       (idxList : List ℕ) (hl vc : Bool) (ca : Option (List (Option ℝ)))
       (lightPos : Vec3) (objs : List SceneObject) (display : DisplayState) (j : ℕ),
       ((calculateRooftopArea GHI totalDaytime jits ⟨nm, verts, some idxList, hl, ca, vc⟩
           lightPos objs display).1[j]?).map (fun r => r.bipvValue) =
         ((faceIndices idxList)[j]?).map (fun f =>
           GHI * faceArea verts f * (1 - faceShadow verts lightPos objs jits (j, f)) * 0.15)) := by
  constructor
  · intro parseDate getPosition dv sliderValue light t hdv hpd
    simp only [updateSunPosition]
    rw [if_neg hdv, hpd]
  · intro GHI totalDaytime jits nm verts idxList hl vc ca lightPos objs display j
    simp only [calculateRooftopArea, calcAccum, calcFold, List.nil_append, List.getElem?_map,
      List.getElem?_enum, Option.map_map]
    cases hf : (faceIndices idxList)[j]? with
    | none => rfl
    | some f => simp [faceRecord, faceBipv]

/-- C5 witness: a parseable date at altitude 1 above the horizon sets the
nominal intensity 5. -/
theorem C5_witness :
    (updateSunPosition (fun _ => some 0) (fun _ => ⟨0, 1⟩) (some "2024-06-01") 720
        ⟨none, none, none, ⟨0, 0, 0⟩, 0⟩).2.intensity = 5 := by
  have h := C5_intensityAndPV.1 (fun _ => some 0) (fun _ => ⟨0, 1⟩) "2024-06-01" 720
    ⟨none, none, none, ⟨0, 0, 0⟩, 0⟩ 0 (by decide) rfl
  rw [h]
  norm_num

/-- C6 counterexample: a mesh whose only face is degenerate completes with
a zero-contribution record, but the aggregates are not well-defined: the
total area is 0 and the total shadow fraction and total PV value are `NaN`
(`none`), refuting well-defined aggregates for every mesh containing
degenerate faces. -/
theorem C6_counterexample :
    (calculateRooftopArea 5.5 12 demoJit degenBuilding ⟨0, 0, 0⟩ [] emptyDisplay).1 =
      [⟨0, 1, 2, 0, FaceType.Vertical⟩] ∧
    ((calculateRooftopArea 5.5 12 demoJit degenBuilding ⟨0, 0, 0⟩ [] emptyDisplay).2.card).map
      (fun ic => ic.totalArea) = some 0 ∧
    ((calculateRooftopArea 5.5 12 demoJit degenBuilding ⟨0, 0, 0⟩ [] emptyDisplay).2.card).map
      (fun ic => ic.totalShadowFraction) = some none ∧
    ((calculateRooftopArea 5.5 12 demoJit degenBuilding ⟨0, 0, 0⟩ [] emptyDisplay).2.card).map
      (fun ic => ic.totalPVValue) = some none := by
  refine ⟨?_, ?_, ?_, ?_⟩ <;>
    simp only [calculateRooftopArea, degenBuilding, degenAccum] <;>
    norm_num [jsdiv, updateInfoCard]

/-- C6 amended: a face of zero area (equivalently, zero-length normal)
contributes zero to every accumulator and yields a zero PV record, with no
failure; and the aggregate shadow fraction (hence the PV aggregates) is
well-defined exactly when the total area is nonzero — an entirely
degenerate mesh yields `NaN` aggregates. -/
theorem C6_degenerateFaces :
    (∀ (GHI : ℝ) (verts : List ℝ) (lightPos : Vec3) (objs : List SceneObject)
       (jits : ℕ → ℕ → Vec3) (acc : CalcAccum) (p : ℕ × ℕ × ℕ × ℕ),
       faceArea verts p.2 = 0 →
       processFace GHI verts lightPos objs jits acc p =
         { acc with bipvValues := acc.bipvValues ++
             [⟨p.2.1, p.2.2.1, p.2.2.2, 0,
               if faceIsVertical verts p.2 then FaceType.Vertical else FaceType.Rooftop⟩] }) ∧
    (∀ (GHI totalDaytime : ℝ) (jits : ℕ → ℕ → Vec3) (nm : String) (verts : List ℝ)
       (idxList : List ℕ) (hl vc : Bool) (ca : Option (List (Option ℝ)))
       (lightPos : Vec3) (objs : List SceneObject) (display : DisplayState),
       ∃ ic, (calculateRooftopArea GHI totalDaytime jits ⟨nm, verts, some idxList, hl, ca, vc⟩
           lightPos objs display).2.card = some ic ∧
         (ic.totalShadowFraction = none ↔ ic.totalArea = 0)) := by
  constructor
  · intro GHI verts lightPos objs jits acc p h
    rw [processFace_spec]
    by_cases hv : faceIsVertical verts p.2
    · rw [if_pos hv]
      simp [faceBipv, h, hv]
    · rw [if_neg hv]
      simp [faceBipv, h, hv]
  · intro GHI totalDaytime jits nm verts idxList hl vc ca lightPos objs display
    simp only [calculateRooftopArea, calcAccum, calcFold, updateInfoCard, zero_add,
      List.nil_append]
    refine ⟨_, rfl, ?_⟩
    by_cases hA : roofAreaSum verts (faceIndices idxList).enum +
        vertAreaSum verts (faceIndices idxList).enum = 0 <;>
      simp [jsdiv, hA]

/-- C6 witness: the degenerate demo face has zero area and its loop
iteration only appends a zero-PV Vertical record to the accumulator. -/
theorem C6_witness :
    faceArea degenVerts (0, 1, 2) = 0 ∧
    processFace 1 degenVerts ⟨0, 0, 0⟩ [] demoJit ⟨0, 0, 0, 0, []⟩ (0, (0, 1, 2)) =
      ⟨0, 0, 0, 0, [⟨0, 1, 2, 0, FaceType.Vertical⟩]⟩ := by
  constructor
  · exact degen_face_area
  · have h := C6_degenerateFaces.1 1 degenVerts ⟨0, 0, 0⟩ [] demoJit ⟨0, 0, 0, 0, []⟩
      (0, (0, 1, 2)) degen_face_area
    rw [h]
    simp [degen_vertical]
